import Mathlib

/-!
Shallow embedding of the browser game client (`GameClient` in `src/game.js`,
with the earlier revision in `src/unnamed/part_000`).

Coordinates and canvas/world dimensions are JavaScript numbers that the client
only subtracts, halves, and clamps with `Math.max`/`Math.min`; they are
modelled as rationals.  JavaScript objects used as string-keyed maps are
modelled as association lists with `objGet`/`objSet`/`objDel`; the JavaScript
`Set` of active keys, which iterates in insertion order, is modelled as a
duplicate-free list to which `setAdd` appends.  The calls the input handlers
make into `sendMoveCommand`/`sendStopCommand` are reified as an `Intent` list
returned next to the updated state, and the side effects of
`handleServerMessage` (calls to `draw()`, to `console.error`, and — never —
to `ws.close()`) are reified in an `Effects` record.
-/

/-- Player state as carried in server messages (`message.players[id]`). -/
structure Player where
  id : String
  x : ℚ
  y : ℚ
  facing : String
  animationFrame : Option Nat
  avatar : String
  username : String
  deriving DecidableEq, Repr

/-- Avatar definition: a name and a map from facing direction to the ordered
frame list, modelled as a function so that a definition may or may not carry
an explicit entry for any direction (in particular an explicit `west` entry). -/
structure AvatarData where
  name : String
  frames : String → Option (List String)

/-! ## Input controller (`setupKeyboardControls`, `handleKeyDown`, `handleKeyUp`) -/

/-- An outbound movement intent: a call to `sendMoveCommand(direction)`
(where the argument may be `undefined`, hence `Option`) or `sendStopCommand()`. -/
inductive Intent where
  | move (direction : Option String)
  | stop
  deriving DecidableEq, Repr

/-- Mirrors `isArrowKey` in `src/game.js`. -/
def isArrowKey (code : String) : Bool :=
  code = "ArrowUp" || code = "ArrowDown" || code = "ArrowLeft" || code = "ArrowRight"

/-- Mirrors `getDirectionFromKey`: lookup in the `keyToDirection` object,
`none` standing for JavaScript `undefined`. -/
def getDirectionFromKey (code : String) : Option String :=
  if code = "ArrowUp" then some "up"
  else if code = "ArrowDown" then some "down"
  else if code = "ArrowLeft" then some "left"
  else if code = "ArrowRight" then some "right"
  else none

/-- The input-controller slice of the client state: `this.activeKeys`
(a `Set`, kept here as an insertion-ordered duplicate-free list) and
`this.currentDirection`. -/
structure InputState where
  activeKeys : List String
  currentDirection : Option String
  deriving DecidableEq, Repr

/-- The constructor initialises `activeKeys = new Set()` and
`currentDirection = null`. -/
def initInputState : InputState :=
  { activeKeys := [], currentDirection := none }

/-- `Set.add`: appends the element unless already present (insertion order). -/
def setAdd (s : List String) (k : String) : List String :=
  if k ∈ s then s else s ++ [k]

/-- `Set.delete`: removes the element if present. -/
def setDelete (s : List String) (k : String) : List String :=
  s.filter (fun x => x != k)

/-- Mirrors `handleKeyDown(keyCode)`.  The first argument is whether
`this.ws` exists and its `readyState` is `OPEN` at the time of the event;
when it is not, the handler returns before touching any state.  Otherwise a
mapped key is added to `activeKeys`, `currentDirection` is set, and
`sendMoveCommand(direction)` is called. -/
def handleKeyDown (wsOpen : Bool) (s : InputState) (keyCode : String) :
    InputState × List Intent :=
  if wsOpen = false then (s, [])
  else
    match getDirectionFromKey keyCode with
    | some direction =>
        ({ activeKeys := setAdd s.activeKeys keyCode,
           currentDirection := some direction },
         [Intent.move (some direction)])
    | none => (s, [])

/-- Mirrors `handleKeyUp(keyCode)`: delete the key; if the set became empty,
clear the direction and call `sendStopCommand()`; otherwise resolve the last
remaining key (`Array.from(activeKeys)[length - 1]`, i.e. the most recently
inserted one) and call `sendMoveCommand` with its direction. -/
def handleKeyUp (s : InputState) (keyCode : String) : InputState × List Intent :=
  let activeKeys := setDelete s.activeKeys keyCode
  if activeKeys.isEmpty then
    ({ activeKeys := activeKeys, currentDirection := none }, [Intent.stop])
  else
    let lastKey := activeKeys.getLast?
    let currentDirection := lastKey.bind getDirectionFromKey
    ({ activeKeys := activeKeys, currentDirection := currentDirection },
     [Intent.move currentDirection])

/-! ## JavaScript-object helpers -/

/-- Property read `m[key]` on a string-keyed object. -/
def objGet {α : Type} : List (String × α) → String → Option α
  | [], _ => none
  | (k, v) :: rest, key => if k = key then some v else objGet rest key

/-- Property write `m[key] = val`: overwrite in place or append. -/
def objSet {α : Type} : List (String × α) → String → α → List (String × α)
  | [], key, val => [(key, val)]
  | (k, v) :: rest, key, val =>
      if k = key then (k, val) :: rest else (k, v) :: objSet rest key val

/-- Property delete `delete m[key]`. -/
def objDel {α : Type} : List (String × α) → String → List (String × α)
  | [], _ => []
  | (k, v) :: rest, key => if k = key then objDel rest key else (k, v) :: objDel rest key

/-! ## World state store and message dispatch (`handleServerMessage`) -/

/-- The world-state slice of `GameClient`, together with the canvas and world
dimensions that `updateViewport` reads. -/
structure GameState where
  myPlayerId : Option String
  myPlayer : Option Player
  allPlayers : List (String × Player)
  avatars : List (String × AvatarData)
  viewportX : ℚ
  viewportY : ℚ
  canvasW : ℚ
  canvasH : ℚ
  worldWidth : ℚ
  worldHeight : ℚ

/-- The constructor of `GameClient`: null player id and reference, empty
player and avatar maps, viewport at the origin, a 2048×2048 world, and the
canvas sized to the window. -/
def mkInitialState (canvasW canvasH : ℚ) : GameState :=
  { myPlayerId := none, myPlayer := none, allPlayers := [], avatars := [],
    viewportX := 0, viewportY := 0,
    canvasW := canvasW, canvasH := canvasH,
    worldWidth := 2048, worldHeight := 2048 }

/-- Side effects issued while handling one server message: number of `draw()`
calls, number of `console.error` calls, and whether the handler closed the
connection (no branch of `handleServerMessage` ever does). -/
structure Effects where
  draws : Nat
  errors : Nat
  closesConnection : Bool
  deriving DecidableEq, Repr

/-- Inbound server messages, discriminated by their `action` tag.  In a
`players_moved` payload a `none` value stands for a JSON `null` entry. -/
inductive ServerMessage where
  | joinGame (success : Bool) (playerId : String)
      (players : List (String × Player)) (avatars : List (String × AvatarData))
      (error : String)
  | playersMoved (players : List (String × Option Player))
  | playerJoined (player : Player) (avatar : AvatarData)
  | playerLeft (playerId : String)
  | unknown (action : String)

/-- Mirrors `updateViewport()`: early return when `this.myPlayer` is null;
otherwise centre on the player and clamp each axis with
`Math.max(0, Math.min(v, worldDim - canvasDim))`. -/
def updateViewport (s : GameState) : GameState :=
  match s.myPlayer with
  | none => s
  | some p =>
      let centerX := s.canvasW / 2
      let centerY := s.canvasH / 2
      let newViewportX := max 0 (min (p.x - centerX) (s.worldWidth - s.canvasW))
      let newViewportY := max 0 (min (p.y - centerY) (s.worldHeight - s.canvasH))
      { s with viewportX := newViewportX, viewportY := newViewportY }

/-- The `Object.keys(message.players).forEach(...)` loop of the
`players_moved` branch: truthy entries replace the player wholesale; if the
id is the local player's, `myPlayer` is replaced and the viewport recomputed;
null entries are skipped. -/
def processMoved (s : GameState) : List (String × Option Player) → GameState
  | [] => s
  | (playerId, entry) :: rest =>
      match entry with
      | some p =>
          let s1 := { s with allPlayers := objSet s.allPlayers playerId p }
          let s2 :=
            if s.myPlayerId = some playerId then
              updateViewport { s1 with myPlayer := some p }
            else s1
          processMoved s2 rest
      | none => processMoved s rest

/-- Mirrors `handleServerMessage(message)`: the `switch` over `message.action`. -/
def handleServerMessage (s : GameState) (msg : ServerMessage) : GameState × Effects :=
  match msg with
  | .joinGame success playerId players avatars _error =>
      if success then
        let s1 := { s with myPlayerId := some playerId,
                           avatars := avatars,
                           allPlayers := players,
                           myPlayer := objGet players playerId }
        (updateViewport s1, { draws := 1, errors := 0, closesConnection := false })
      else
        (s, { draws := 0, errors := 1, closesConnection := false })
  | .playersMoved players =>
      (processMoved s players, { draws := 1, errors := 0, closesConnection := false })
  | .playerJoined player avatar =>
      ({ s with allPlayers := objSet s.allPlayers player.id player,
                avatars := objSet s.avatars avatar.name avatar },
       { draws := 1, errors := 0, closesConnection := false })
  | .playerLeft playerId =>
      ({ s with allPlayers := objDel s.allPlayers playerId },
       { draws := 1, errors := 0, closesConnection := false })
  | .unknown _ =>
      (s, { draws := 0, errors := 0, closesConnection := false })

/-- Whether a message is a `join_game` with `success` true — the only branch
of `handleServerMessage` that writes `myPlayerId`. -/
def isSuccessJoin : ServerMessage → Bool
  | .joinGame success _ _ _ _ => success
  | _ => false

/-! ## Avatar renderer frame selection (`drawAvatar`) -/

/-- The frame index `player.animationFrame || 0`. -/
def frameIndexOf (p : Player) : Nat :=
  p.animationFrame.getD 0

/-- Mirrors the frame-sequence selection in `drawAvatar`:
`let frames = avatarData.frames[direction]` followed by the unconditional
substitution `frames = avatarData.frames.east` when `direction === 'west'`. -/
def selectFrames (p : Player) (a : AvatarData) : Option (List String) :=
  let frames := a.frames p.facing
  if p.facing = "west" then a.frames "east" else frames

/-- The frame actually drawn: `frames[frameIndex]` when
`frames && frames[frameIndex]` is truthy, `none` (silent skip) otherwise. -/
def resolvedFrame (p : Player) (a : AvatarData) : Option String :=
  match selectFrames p a with
  | some frames => frames[frameIndexOf p]?
  | none => none

/-! ## Earlier revision (`src/unnamed/part_000`) -/

namespace Rev0

/-- The state of the earlier `GameClient` revision, which tracks no
`allPlayers` map and no keyboard state. -/
structure GameState where
  myPlayerId : Option String
  myPlayer : Option Player
  avatars : List (String × AvatarData)
  viewportX : ℚ
  viewportY : ℚ
  canvasW : ℚ
  canvasH : ℚ
  worldWidth : ℚ
  worldHeight : ℚ

/-- Mirrors `updateViewport()` of `src/unnamed/part_000` — textually the same
guard, centring and clamping as the current revision. -/
def updateViewport (s : GameState) : GameState :=
  match s.myPlayer with
  | none => s
  | some p =>
      let centerX := s.canvasW / 2
      let centerY := s.canvasH / 2
      let newViewportX := max 0 (min (p.x - centerX) (s.worldWidth - s.canvasW))
      let newViewportY := max 0 (min (p.y - centerY) (s.worldHeight - s.canvasH))
      { s with viewportX := newViewportX, viewportY := newViewportY }

end Rev0

/-! ## Helper lemmas -/

theorem objGet_objSet_ne {α : Type} (m : List (String × α)) (k key : String) (v : α)
    (h : k ≠ key) : objGet (objSet m k v) key = objGet m key := by
  induction m with
  | nil => simp [objSet, objGet, h]
  | cons head tail ih =>
      obtain ⟨hk, hv⟩ := head
      by_cases hkk : hk = k
      · subst hkk
        simp [objSet, objGet, h]
      · simp [objSet, objGet, hkk, ih]

theorem objGet_objDel_ne {α : Type} (m : List (String × α)) (k key : String)
    (h : k ≠ key) : objGet (objDel m k) key = objGet m key := by
  induction m with
  | nil => simp [objDel, objGet]
  | cons head tail ih =>
      obtain ⟨hk, hv⟩ := head
      by_cases hkk : hk = k
      · subst hkk
        simp [objDel, objGet, h, ih]
      · simp [objDel, objGet, hkk, ih]

theorem updateViewport_allPlayers (s : GameState) :
    (updateViewport s).allPlayers = s.allPlayers := by
  unfold updateViewport
  cases s.myPlayer <;> rfl

theorem updateViewport_myPlayerId (s : GameState) :
    (updateViewport s).myPlayerId = s.myPlayerId := by
  unfold updateViewport
  cases s.myPlayer <;> rfl

theorem processMoved_myPlayerId (payload : List (String × Option Player)) (s : GameState) :
    (processMoved s payload).myPlayerId = s.myPlayerId := by
  induction payload generalizing s with
  | nil => rfl
  | cons head tail ih =>
      obtain ⟨playerId, entry⟩ := head
      cases entry with
      | none => exact ih s
      | some p =>
          show (processMoved _ tail).myPlayerId = s.myPlayerId
          rw [ih]
          by_cases hmy : s.myPlayerId = some playerId
      
          · simp [hmy, updateViewport_myPlayerId]
          · simp [hmy]

theorem processMoved_objGet_untouched (payload : List (String × Option Player))
    (s : GameState) (id : String) (h : ∀ p : Player, (id, some p) ∉ payload) :
    objGet (processMoved s payload).allPlayers id = objGet s.allPlayers id := by
  induction payload generalizing s with
  | nil => rfl
  | cons head tail ih =>
      obtain ⟨playerId, entry⟩ := head
      cases entry with
      | none =>
          exact ih s (fun p hp => h p (List.mem_cons_of_mem _ hp))
      | some p =>
          have hne : playerId ≠ id := by
            intro hEq
            subst hEq
            exact h p (List.mem_cons_self _ _)
          show objGet (processMoved _ tail).allPlayers id = objGet s.allPlayers id
          rw [ih _ (fun q hq => h q (List.mem_cons_of_mem _ hq))]
          by_cases hmy : s.myPlayerId = some playerId
          · simp [hmy, updateViewport_allPlayers, objGet_objSet_ne _ _ _ _ hne]
          · simp [hmy, objGet_objSet_ne _ _ _ _ hne]

/-! ## Claim theorems -/

/-- Claim C1: for every state with a local player, the viewport origin
computed by `updateViewport` lies in `[0, max 0 (worldWidth - canvasWidth)]`
on the x axis and `[0, max 0 (worldHeight - canvasHeight)]` on the y axis,
and whenever the unclamped centring `playerPos - canvasSize / 2` already lies
within `[0, worldDim - canvasDim]` on both axes (which forces world ≥ canvas),
the player's screen position `playerPos - viewport` is exactly the canvas
centre. -/
theorem viewport_clamps_and_centers (s : GameState) (p : Player)
    (h : s.myPlayer = some p) :
    (0 ≤ (updateViewport s).viewportX ∧
      (updateViewport s).viewportX ≤ max 0 (s.worldWidth - s.canvasW)) ∧
    (0 ≤ (updateViewport s).viewportY ∧
      (updateViewport s).viewportY ≤ max 0 (s.worldHeight - s.canvasH)) ∧
    (0 ≤ p.x - s.canvasW / 2 → p.x - s.canvasW / 2 ≤ s.worldWidth - s.canvasW →
     0 ≤ p.y - s.canvasH / 2 → p.y - s.canvasH / 2 ≤ s.worldHeight - s.canvasH →
     p.x - (updateViewport s).viewportX = s.canvasW / 2 ∧
     p.y - (updateViewport s).viewportY = s.canvasH / 2) := by
  simp only [updateViewport, h]
  refine ⟨⟨le_max_left _ _, max_le_max le_rfl (min_le_right _ _)⟩,
          ⟨le_max_left _ _, max_le_max le_rfl (min_le_right _ _)⟩, ?_⟩
  intro hx0 hx1 hy0 hy1
  rw [min_eq_left hx1, max_eq_right hx0, min_eq_left hy1, max_eq_right hy0]
  constructor <;> ring

/-- The end-to-end example state of the spec: player at (1000, 1000), canvas
800×600, world 2048×2048. -/
def c1Player : Player :=
  { id := "p1", x := 1000, y := 1000, facing := "south",
    animationFrame := some 0, avatar := "a1", username := "Joe" }

/-- State holding `c1Player` as the local player on an 800×600 canvas. -/
def c1State : GameState :=
  { mkInitialState 800 600 with
      myPlayerId := some "p1",
      myPlayer := some c1Player,
      allPlayers := [("p1", c1Player)] }

/-- Witness for C1 at the spec's end-to-end example: the hypotheses hold and
the player lands exactly at the canvas centre (400, 300). -/
theorem viewport_clamps_and_centers_witness :
    c1State.myPlayer = some c1Player ∧
    c1Player.x - (updateViewport c1State).viewportX = c1State.canvasW / 2 ∧
    c1Player.y - (updateViewport c1State).viewportY = c1State.canvasH / 2 := by
  refine ⟨rfl, ?_⟩
  have h := (viewport_clamps_and_centers c1State c1Player rfl).2.2
  exact h (by norm_num [c1Player, c1State, mkInitialState])
    (by norm_num [c1Player, c1State, mkInitialState])
    (by norm_num [c1Player, c1State, mkInitialState])
    (by norm_num [c1Player, c1State, mkInitialState])

/-- Claim C2: when the player faces west, frame selection in `drawAvatar`
uses the avatar's east frame sequence at the player's animation-frame index
(index 0 when `animationFrame` is absent), regardless of any explicit west
entry in the avatar definition. -/
theorem west_facing_uses_east_frames (p : Player) (a : AvatarData)
    (h : p.facing = "west") :
    selectFrames p a = a.frames "east" ∧
    resolvedFrame p a = (a.frames "east").bind (fun fs => fs[frameIndexOf p]?) ∧
    (p.animationFrame = none → frameIndexOf p = 0) := by
  have hsel : selectFrames p a = a.frames "east" := by
    simp [selectFrames, h]
  refine ⟨hsel, ?_, ?_⟩
  · rw [resolvedFrame, hsel]
    cases a.frames "east" <;> rfl
  · intro hnone
    simp [frameIndexOf, hnone]

/-- A west-facing player with no animation frame index. -/
def c2Player : Player :=
  { id := "p2", x := 0, y := 0, facing := "west",
    animationFrame := none, avatar := "a2", username := "Ann" }

/-- An avatar definition that carries an explicit (should-be-ignored) west
frame sequence distinct from its east sequence. -/
def c2Avatar : AvatarData :=
  { name := "a2",
    frames := fun d =>
      if d = "north" then some ["N0"]
      else if d = "south" then some ["S0"]
      else if d = "east" then some ["E0", "E1"]
      else if d = "west" then some ["W0", "W1"]
      else none }

/-- Witness for C2: the explicit west entry `["W0", "W1"]` exists, yet the
resolved frame is the east sequence's entry at index 0. -/
theorem west_facing_uses_east_frames_witness :
    c2Player.facing = "west" ∧
    c2Avatar.frames "west" = some ["W0", "W1"] ∧
    selectFrames c2Player c2Avatar = c2Avatar.frames "east" ∧
    resolvedFrame c2Player c2Avatar = some "E0" := by
  have h := west_facing_uses_east_frames c2Player c2Avatar rfl
  exact ⟨rfl, by decide, h.1, by decide⟩

/-- Claim C8: a `join_game` message with `success` false produces one
surfaced error, leaves the whole store state (local player id, player
mapping, avatar mapping, viewport origin) unchanged, triggers no redraw and
does not close the connection. -/
theorem join_failure_mutates_nothing (s : GameState) (playerId : String)
    (players : List (String × Player)) (avatars : List (String × AvatarData))
    (error : String) :
    handleServerMessage s (.joinGame false playerId players avatars error)
      = (s, { draws := 0, errors := 1, closesConnection := false }) := rfl

/-- Claim C9: a key-down arriving while the websocket is absent or not open
leaves the input state untouched and emits nothing. -/
theorem keydown_ignored_when_socket_closed (s : InputState) (keyCode : String) :
    handleKeyDown false s keyCode = (s, []) := rfl

/-- Claim C10: the viewport computations of the two revisions agree
extensionally — for any local-player option, prior viewport, canvas size and
world size, `updateViewport` of `src/game.js` and `Rev0.updateViewport` of
`src/unnamed/part_000` produce the same viewport origin, including the early
return when no local player is set. -/
theorem updateViewport_revisions_agree (mp : Option Player) (mpid : Option String)
    (aps : List (String × Player)) (avs : List (String × AvatarData))
    (vx vy cw ch ww wh : ℚ) :
    ((updateViewport
        { myPlayerId := mpid, myPlayer := mp, allPlayers := aps, avatars := avs,
          viewportX := vx, viewportY := vy, canvasW := cw, canvasH := ch,
          worldWidth := ww, worldHeight := wh }).viewportX,
     (updateViewport
        { myPlayerId := mpid, myPlayer := mp, allPlayers := aps, avatars := avs,
          viewportX := vx, viewportY := vy, canvasW := cw, canvasH := ch,
          worldWidth := ww, worldHeight := wh }).viewportY)
    = ((Rev0.updateViewport
          { myPlayerId := mpid, myPlayer := mp, avatars := avs,
            viewportX := vx, viewportY := vy, canvasW := cw, canvasH := ch,
            worldWidth := ww, worldHeight := wh }).viewportX,
       (Rev0.updateViewport
          { myPlayerId := mpid, myPlayer := mp, avatars := avs,
            viewportX := vx, viewportY := vy, canvasW := cw, canvasH := ch,
            worldWidth := ww, worldHeight := wh }).viewportY) := by
  cases mp <;> rfl

/-- Claim C3: a `players_moved` message leaves unchanged the player-mapping
entry of every id whose payload value is null (`none`) or absent, and the
whole batch triggers exactly one redraw. -/
theorem players_moved_skips_null_draws_once (s : GameState)
    (payload : List (String × Option Player)) (id : String)
    (h : ∀ p : Player, (id, some p) ∉ payload) :
    objGet ((handleServerMessage s (.playersMoved payload)).1).allPlayers id
      = objGet s.allPlayers id ∧
    ((handleServerMessage s (.playersMoved payload)).2).draws = 1 :=
  ⟨processMoved_objGet_untouched payload s id h, rfl⟩

/-- A stored player "p7" used in the C3 witness. -/
def c3Player : Player :=
  { id := "p7", x := 5, y := 6, facing := "north", animationFrame := some 1,
    avatar := "a7", username := "Pat" }

/-- A store that already holds an entry for "p7". -/
def c3State : GameState :=
  { mkInitialState 800 600 with
      myPlayerId := some "p1",
      allPlayers := [("p7", c3Player)] }

/-- Witness for C3: the payload `\x7b"p7": null\x7d` names "p7" only with a null
value, the prior entry survives unchanged, and exactly one redraw fires. -/
theorem players_moved_skips_null_draws_once_witness :
    (∀ p : Player, ("p7", some p) ∉ [("p7", (none : Option Player))]) ∧
    (objGet ((handleServerMessage c3State
        (.playersMoved [("p7", none)])).1).allPlayers "p7"
       = objGet c3State.allPlayers "p7" ∧
     ((handleServerMessage c3State (.playersMoved [("p7", none)])).2).draws = 1) ∧
    objGet c3State.allPlayers "p7" = some c3Player := by
  have hnull : ∀ p : Player, ("p7", some p) ∉ [("p7", (none : Option Player))] := by
    intro p hp
    simp at hp
  exact ⟨hnull,
    players_moved_skips_null_draws_once c3State [("p7", none)] "p7" hnull,
    by decide⟩

/-- Counterexample to C4 as stated: with the socket open, a key-down for
"ArrowUp" while "ArrowUp" is already in the held set still emits a move
intent (the code re-sends on every key-down, e.g. on keyboard auto-repeat). -/
theorem held_keydown_still_emits_move :
    "ArrowUp" ∈ (InputState.mk ["ArrowUp"] (some "up")).activeKeys ∧
    (handleKeyDown true (InputState.mk ["ArrowUp"] (some "up")) "ArrowUp").2
      = [Intent.move (some "up")] := by
  exact ⟨by decide, by decide⟩

/-- Claim C4 as amended: on every key-down of a mapped directional key while
the channel is open — whether or not the key is already in the held set — a
move intent for that key's direction is emitted and the current direction is
set to that key's direction; the key is added to the held set in insertion
order, which leaves the set unchanged when the key is already held. -/
theorem keydown_always_emits_move (s : InputState) (keyCode direction : String)
    (hdir : getDirectionFromKey keyCode = some direction) :
    handleKeyDown true s keyCode
      = ({ activeKeys := setAdd s.activeKeys keyCode,
           currentDirection := some direction },
         [Intent.move (some direction)]) ∧
    (keyCode ∈ s.activeKeys → setAdd s.activeKeys keyCode = s.activeKeys) := by
  constructor
  · simp [handleKeyDown, hdir]
  · intro hheld
    simp [setAdd, hheld]

/-- Witness for the amended C4, at a fresh key-down of "ArrowUp" from the
initial state and at a key-down of "ArrowUp" while it is already held: both
emit a move intent, and the already-held add leaves the set unchanged. -/
theorem keydown_always_emits_move_witness :
    getDirectionFromKey "ArrowUp" = some "up" ∧
    handleKeyDown true initInputState "ArrowUp"
      = ({ activeKeys := setAdd initInputState.activeKeys "ArrowUp",
           currentDirection := some "up" },
         [Intent.move (some "up")]) ∧
    handleKeyDown true (InputState.mk ["ArrowUp"] (some "up")) "ArrowUp"
      = ({ activeKeys := setAdd ["ArrowUp"] "ArrowUp",
           currentDirection := some "up" },
         [Intent.move (some "up")]) ∧
    setAdd ["ArrowUp"] "ArrowUp" = ["ArrowUp"] :=
  ⟨by decide,
   (keydown_always_emits_move initInputState "ArrowUp" "up" (by decide)).1,
   (keydown_always_emits_move (InputState.mk ["ArrowUp"] (some "up"))
      "ArrowUp" "up" (by decide)).1,
   (keydown_always_emits_move (InputState.mk ["ArrowUp"] (some "up"))
      "ArrowUp" "up" (by decide)).2 (by decide)⟩

/-- Claim C5: a key-up of a held key that leaves the held set non-empty
resolves the current direction to that of the most recently added remaining
key (the last of the insertion-ordered set) and emits a move intent for it. -/
theorem keyup_resolves_most_recent_remaining (s : InputState)
    (keyCode lastKey : String) (hheld : keyCode ∈ s.activeKeys)
    (hlast : (setDelete s.activeKeys keyCode).getLast? = some lastKey) :
    (handleKeyUp s keyCode).1.currentDirection = getDirectionFromKey lastKey ∧
    (handleKeyUp s keyCode).2 = [Intent.move (getDirectionFromKey lastKey)] := by
  have hne : setDelete s.activeKeys keyCode ≠ [] := by
    intro h0
    rw [h0] at hlast
    simp at hlast
  have hempty : (setDelete s.activeKeys keyCode).isEmpty = false := by
    cases h : setDelete s.activeKeys keyCode with
    | nil => exact absurd h hne
    | cons a as => rfl
  constructor <;> simp [handleKeyUp, hempty, hlast]

/-- The input state after pressing Up then Left from the initial state with
the socket open. -/
def c5UpLeft : InputState :=
  (handleKeyDown true (handleKeyDown true initInputState "ArrowUp").1 "ArrowLeft").1

/-- Witness for C5: pressing Up then Left then releasing Left resolves the
current direction back to Up (not null and not Left) and re-emits a move. -/
theorem keyup_resolves_most_recent_remaining_witness :
    "ArrowLeft" ∈ c5UpLeft.activeKeys ∧
    (setDelete c5UpLeft.activeKeys "ArrowLeft").getLast? = some "ArrowUp" ∧
    getDirectionFromKey "ArrowUp" = some "up" ∧
    ((handleKeyUp c5UpLeft "ArrowLeft").1.currentDirection
        = getDirectionFromKey "ArrowUp" ∧
     (handleKeyUp c5UpLeft "ArrowLeft").2
        = [Intent.move (getDirectionFromKey "ArrowUp")]) :=
  ⟨by decide, by decide, by decide,
   keyup_resolves_most_recent_remaining c5UpLeft "ArrowLeft" "ArrowUp"
     (by decide) (by decide)⟩

/-- Counterexample to C6 as stated: from the initial input state, whose held
set is already empty, a key-up of "ArrowUp" emits a stop intent even though
no non-empty held set became empty. -/
theorem keyup_on_empty_set_still_stops :
    initInputState.activeKeys = [] ∧
    (handleKeyUp initInputState "ArrowUp").2 = [Intent.stop] := by
  exact ⟨rfl, rfl⟩

/-- Claim C6 as amended: a key-up emits exactly one stop intent precisely
when the held set is empty after the removal — releasing the only held key
emits exactly one stop, a key-up that leaves keys held emits none, and a
key-up on an already-empty set also emits one. -/
theorem keyup_stop_counts (s : InputState) (keyCode : String) :
    ((handleKeyUp s keyCode).2).count Intent.stop
      = if setDelete s.activeKeys keyCode = [] then 1 else 0 := by
  by_cases h : setDelete s.activeKeys keyCode = []
  · simp [handleKeyUp, h]
  · have hempty : (setDelete s.activeKeys keyCode).isEmpty = false := by
      cases hc : setDelete s.activeKeys keyCode with
      | nil => exact absurd hc h
      | cons a as => rfl
    simp [handleKeyUp, hempty, h]

/-- Players used in the C7 scenario. -/
def c7Player1 : Player :=
  { id := "p1", x := 10, y := 20, facing := "south", animationFrame := none,
    avatar := "a1", username := "Joe" }

/-- A second player, distinct from the local one. -/
def c7Player2 : Player :=
  { id := "p2", x := 30, y := 40, facing := "east", animationFrame := some 2,
    avatar := "a2", username := "Sam" }

/-- First successful join, assigning local id "p1". -/
def c7Join1 : ServerMessage :=
  .joinGame true "p1" [("p1", c7Player1)] [] ""

/-- A second successful join naming a different id. -/
def c7Join2 : ServerMessage :=
  .joinGame true "p2" [("p2", c7Player2)] [] ""

/-- Counterexample to C7 as stated: after a successful join sets the local
player id to "p1", processing a further inbound message — a second successful
`join_game` — overwrites it with "p2". -/
theorem second_join_overwrites_identity :
    ((handleServerMessage (mkInitialState 800 600) c7Join1).1).myPlayerId
      = some "p1" ∧
    ((handleServerMessage
        (handleServerMessage (mkInitialState 800 600) c7Join1).1
        c7Join2).1).myPlayerId = some "p2" ∧
    ("p1" : String) ≠ "p2" := by
  exact ⟨by decide, by decide, by decide⟩

/-- A reachable post-join store holding the local player "p1" and another
player "p2". -/
def c7State : GameState :=
  { mkInitialState 800 600 with
      myPlayerId := some "p1",
      myPlayer := some c7Player1,
      allPlayers := [("p1", c7Player1), ("p2", c7Player2)] }

/-- Claim C7 as amended: the local player id is only ever written by a
successful `join_game`; every other message leaves it unchanged, and a
`player_left` naming a different id never removes the local player's entry
from the player mapping. -/
theorem non_join_preserves_identity (s : GameState) (msg : ServerMessage)
    (h : isSuccessJoin msg = false) :
    ((handleServerMessage s msg).1).myPlayerId = s.myPlayerId ∧
    (∀ pid mid, s.myPlayerId = some mid → pid ≠ mid →
      objGet ((handleServerMessage s (.playerLeft pid)).1).allPlayers mid
        = objGet s.allPlayers mid) := by
  constructor
  · cases msg with
    | joinGame success playerId players avatars err =>
        have hs : success = false := by simpa [isSuccessJoin] using h
        subst hs
        rfl
    | playersMoved players => exact processMoved_myPlayerId players s
    | playerJoined player avatar => rfl
    | playerLeft playerId => rfl
    | unknown a => rfl
  · intro pid mid hmid hne
    exact objGet_objDel_ne s.allPlayers pid mid hne

/-- Witness for the amended C7: a `player_left` for "p2" leaves both the
local id "p1" and the local player's map entry intact. -/
theorem non_join_preserves_identity_witness :
    isSuccessJoin (ServerMessage.playerLeft "p2") = false ∧
    ((handleServerMessage c7State (.playerLeft "p2")).1).myPlayerId
      = c7State.myPlayerId ∧
    objGet ((handleServerMessage c7State (.playerLeft "p2")).1).allPlayers "p1"
      = objGet c7State.allPlayers "p1" := by
  have h := non_join_preserves_identity c7State (.playerLeft "p2") rfl
  exact ⟨rfl, h.1, h.2 "p2" "p1" rfl (by decide)⟩
